import Mathlib

/-!
Shallow embedding of the quantization-aware training core of `ai8x.py`
(quantization primitives, device profiles, quantize/clamp factories,
output-shift computation, elementwise operators and the construction-time
legality checks of the fused operators), together with theorems settling
the specification claims about that code.

Tensors enter the claims only pointwise, so tensor values are modelled by
single rational numbers; the floating-point arithmetic of the source is
modelled by exact rational arithmetic.
-/

namespace AI8X

/-- Round to nearest, ties to even: the rounding convention of the tensor
library's `round()` used by the source. -/
def torchRound (x : ℚ) : ℤ :=
  let n := ⌊x⌋
  let r := x - n
  if r < 1/2 then n
  else if 1/2 < r then n + 1
  else if n % 2 = 0 then n else n + 1

/-- Device profile: the fields set by `Device.__init__` and the
`DevAI84`/`DevAI85` constructors in `ai8x.py`. -/
structure Device where
  device : ℕ
  simulate : Bool
  round_avg : Bool
  WEIGHT_BITS : ℕ
  DATA_BITS : ℕ
  ACTIVATION_BITS : ℕ
  FULL_ACC_BITS : ℕ
  FC_ACTIVATION_BITS : ℕ
  WEIGHT_INPUTS : ℕ
  WEIGHT_DEPTH : ℕ
  MAX_AVG_POOL : ℕ
deriving DecidableEq, Repr

/-- The `DevAI84` limits (`DevAI84.__init__`); the constructor's
`assert not round_avg` is checked by `set_device` below. -/
def devAI84 (simulate round_avg : Bool) : Device :=
  { device := 84, simulate := simulate, round_avg := round_avg,
    WEIGHT_BITS := 8, DATA_BITS := 8, ACTIVATION_BITS := 8,
    FULL_ACC_BITS := 8, FC_ACTIVATION_BITS := 16,
    WEIGHT_INPUTS := 64, WEIGHT_DEPTH := 128, MAX_AVG_POOL := 4 }

/-- The `DevAI85` limits (`DevAI85.__init__`). -/
def devAI85 (simulate round_avg : Bool) : Device :=
  { device := 85, simulate := simulate, round_avg := round_avg,
    WEIGHT_BITS := 8, DATA_BITS := 8, ACTIVATION_BITS := 8,
    FULL_ACC_BITS := 30, FC_ACTIVATION_BITS := 16,
    WEIGHT_INPUTS := 256, WEIGHT_DEPTH := 768, MAX_AVG_POOL := 16 }

/-- `DevAI87` subclasses `DevAI85` and inherits its constructor unchanged,
so it produces exactly the `DevAI85` profile (including `device = 85`). -/
def devAI87 (simulate round_avg : Bool) : Device :=
  devAI85 simulate round_avg

/-- Errors raised while configuring the device. -/
inductive ConfigError where
  /-- `ValueError` raised by `set_device` for an unknown device id. -/
  | unknownDevice (device : ℕ)
  /-- `AssertionError` from `assert not round_avg` in `DevAI84.__init__`. -/
  | assertionFailed
deriving DecidableEq, Repr

/-- `set_device(device, simulate, round_avg)`: the returned profile is the
value assigned to the process-wide global `dev`. -/
def set_device (device : ℕ) (simulate round_avg : Bool) :
    Except ConfigError Device :=
  if device = 84 then
    if round_avg then Except.error ConfigError.assertionFailed
    else Except.ok (devAI84 simulate round_avg)
  else if device = 85 then Except.ok (devAI85 simulate round_avg)
  else if device = 87 then Except.ok (devAI87 simulate round_avg)
  else Except.error (ConfigError.unknownDevice device)

/-- `QuantizationFunction.forward(ctx, x, bits)`. The `dev.simulate` flag is
read from the active profile at call time, so it is a parameter here. -/
def QuantizationFunction.forward (simulate : Bool) (bits : ℤ) (x : ℚ) : ℚ :=
  if simulate then
    if bits > 1 then (⌊(x + 1/2) / (2:ℚ)^(bits-1) + 1/2⌋ : ℤ)
    else if bits < 1 then (⌊x * (2:ℚ)^(1-bits) + 1/2⌋ : ℤ)
    else (⌊x + 1/2⌋ : ℤ)
  else
    (torchRound (x * (2:ℚ)^(bits-1)) : ℚ) / (2:ℚ)^(bits-1)

/-- The quantization-side module objects a factory can build: `Empty`,
`Quantize(num_bits)`, `Floor`, `Round`. -/
inductive QMod where
  | empty
  | quantize (num_bits : ℤ)
  | floor
  | round
deriving DecidableEq, Repr

/-- Forward pass of a quantization-side module. `Quantize.forward` calls
`QuantizationFunction.apply`, which reads `dev.simulate` from the profile
active at forward time (`devNow`); `Floor` and `Round` read nothing. -/
def QMod.apply (devNow : Device) : QMod → ℚ → ℚ
  | QMod.empty, x => x
  | QMod.quantize b, x => QuantizationFunction.forward devNow.simulate b x
  | QMod.floor, x => (⌊x⌋ : ℤ)
  | QMod.round, x => (torchRound x : ℚ)

/-- The clamp-side module objects: `Empty` or `Clamp(min_val, max_val)`. -/
inductive CMod where
  | empty
  | clamp (min_val max_val : ℚ)
deriving DecidableEq, Repr

/-- Forward pass of a clamp-side module; `Clamp.forward` is
`x.clamp(min=min_val, max=max_val)`. -/
def CMod.apply : CMod → ℚ → ℚ
  | CMod.empty, x => x
  | CMod.clamp lo hi, x => min hi (max lo x)

/-- `quantize_clamp(wide, quantize_activation)`, evaluated against the
profile `dev` active when the pipeline stage is constructed. -/
def quantize_clamp (dev : Device) (wide quantize_activation : Bool) :
    QMod × CMod :=
  if dev.simulate then
    if !wide then
      (QMod.quantize dev.DATA_BITS,
       CMod.clamp (-((2:ℚ)^((dev.ACTIVATION_BITS:ℤ)-1)))
                  ((2:ℚ)^((dev.ACTIVATION_BITS:ℤ)-1)-1))
    else
      (QMod.quantize (dev.DATA_BITS+1),
       CMod.clamp (-((2:ℚ)^((dev.FULL_ACC_BITS:ℤ)-1)))
                  ((2:ℚ)^((dev.FULL_ACC_BITS:ℤ)-1)-1))
  else
    (if quantize_activation then
       if !wide then QMod.quantize dev.ACTIVATION_BITS
       else QMod.quantize (dev.DATA_BITS+1)
     else QMod.empty,
     if !wide then
       CMod.clamp (-1)
         (((2:ℚ)^((dev.ACTIVATION_BITS:ℤ)-1)-1)/(2:ℚ)^((dev.ACTIVATION_BITS:ℤ)-1))
     else
       CMod.clamp (-((2:ℚ)^(((dev.FULL_ACC_BITS:ℤ)-2*((dev.DATA_BITS:ℤ)-1))-1)))
                  ((2:ℚ)^(((dev.FULL_ACC_BITS:ℤ)-2*((dev.DATA_BITS:ℤ)-1))-1)))

/-- The pooling argument of the fused operators: `'Max'`, `'Avg'` or `None`. -/
inductive Pooling where
  | Max
  | Avg
deriving DecidableEq, Repr

/-- `quantize_clamp_pool(pooling)`, evaluated against the construction-time
profile `dev`. -/
def quantize_clamp_pool (dev : Device) (pooling : Option Pooling) :
    QMod × CMod :=
  if dev.simulate then
    if pooling = some Pooling.Avg then
      ((if dev.round_avg then QMod.round else QMod.floor),
       CMod.clamp (-((2:ℚ)^((dev.DATA_BITS:ℤ)-1)))
                  ((2:ℚ)^((dev.DATA_BITS:ℤ)-1)-1))
    else (QMod.empty, CMod.empty)
  else
    if pooling = some Pooling.Avg then
      (QMod.empty, CMod.clamp (-1) (127/128))
    else (QMod.empty, CMod.empty)

/-- `quantize_clamp_parameters(bits)`, evaluated against the
construction-time profile `dev`. -/
def quantize_clamp_parameters (dev : Device) (bits : Option ℤ) :
    QMod × CMod :=
  match bits with
  | none => (QMod.empty, CMod.empty)
  | some b =>
    if dev.simulate then
      (QMod.quantize (b - dev.DATA_BITS + 1), CMod.empty)
    else
      (QMod.quantize b, CMod.clamp (-1) (((2:ℚ)^(b-1)-1)/(2:ℚ)^(b-1)))

/-- `OutputShift.forward(x, _)` where `m` is `x.abs().max()`:
`-(1./m).log2().ceil().clamp(min=-15., max=15.)`. For exact positive
rationals, `ceil(log2 q)` is `Int.clog 2 q`; torch `clamp(lo, hi)` is
`min hi (max lo ·)`, and the leading minus applies to the whole chain. -/
def OutputShift.forward (m : ℚ) : ℤ :=
  -(min 15 (max (-15) (Int.clog 2 m⁻¹)))

/-- `OutputShiftSqueeze.forward(_, x)` returns `x.squeeze(0)`: the previous
shift value, unchanged. -/
def OutputShiftSqueeze.forward (_w prev : ℚ) : ℚ := prev

/-- The clamp stage built by `Eltwise.__init__` from the construction-time
profile `dev`. -/
def Eltwise.clampOf (dev : Device) : CMod :=
  if dev.simulate then
    CMod.clamp (-((2:ℚ)^((dev.ACTIVATION_BITS:ℤ)-1)))
               ((2:ℚ)^((dev.ACTIVATION_BITS:ℤ)-1)-1)
  else CMod.clamp (-1) (127/128)

/-- `Eltwise.forward(*x)`: left-fold the binary function `f` over the
inputs (`x` followed by `xs`), then apply the clamp once. -/
def Eltwise.forward (c : CMod) (f : ℚ → ℚ → ℚ) (x : ℚ) (xs : List ℚ) : ℚ :=
  c.apply (List.foldl f x xs)

/-- `Sub.sub(a, b) = torch.add(a, torch.neg(b))`. -/
def Sub.sub (a b : ℚ) : ℚ := a + -b

/-- `Xor.bitwise_xor(a, b)` exactly as written in the source: encode via
`round((v + .5) * 256)`, then `torch.bitwise_or` (sic), then decode. -/
def Xor.bitwise_xor (a b : ℚ) : ℚ :=
  (((Int.lor (torchRound ((a + 1/2) * 256))
              (torchRound ((b + 1/2) * 256))) : ℚ)) / 256 - 1/2

/-- `Or.bitwise_or(a, b)` exactly as written in the source: encode via
`round((v + .5) * 256)`, then `torch.bitwise_xor` (sic), then decode. -/
def Or.bitwise_or (a b : ℚ) : ℚ :=
  (((Int.xor (torchRound ((a + 1/2) * 256))
              (torchRound ((b + 1/2) * 256))) : ℚ)) / 256 - 1/2

/-- Activation argument of the fused operators: `'ReLU'`, `'Abs'` or `None`
(the option layer is kept outside this type). -/
inductive Activation where
  | ReLU
  | Abs
deriving DecidableEq, Repr

/-- Batchnorm argument: `'Affine'`, `'NoAffine'` or `None`. -/
inductive BatchNorm where
  | Affine
  | NoAffine
deriving DecidableEq, Repr

/-- Operator argument of `Conv2d.__init__`. -/
inductive ConvOp where
  | Conv2d
  | ConvTranspose2d
deriving DecidableEq, Repr

/-- The constructor arguments of `ai8x.Conv2d` that the construction-time
assertions inspect (`pool_size` and `pool_stride` in their scalar form;
`pool_stride = none` means the Python default `None`). -/
structure Conv2dConfig where
  pooling : Option Pooling
  pool_size : ℤ
  pool_stride : Option ℤ
  stride : ℤ
  padding : ℤ
  bias : Bool
  activation : Option Activation
  wide : Bool
  batchnorm : Option BatchNorm
  kernel_size : Option ℤ
  op : ConvOp
  weight_bits : Option ℕ
  bias_bits : Option ℕ
deriving DecidableEq, Repr

/-- Conjunction of every construction-time assertion executed while building
an `ai8x.Conv2d` (including the `QuantizationAwareModule.__init__` bit-width
assertions and the `get_activation` device check): the construction succeeds
iff this returns `true`. -/
def Conv2d.valid (dev : Device) (cfg : Conv2dConfig) : Bool :=
  (!cfg.wide || cfg.activation.isNone) &&
  (match cfg.pooling with
   | some p =>
     (decide (dev.device ≠ 84) || decide (cfg.pool_size % 2 = 0)) &&
     (decide (cfg.pool_size ≤ 16) &&
      (decide (dev.device ≠ 84) || decide (cfg.pool_size ≤ 4) ||
       decide (p = Pooling.Max))) &&
     decide (0 < cfg.pool_stride.getD cfg.pool_size) &&
     (decide (cfg.pool_stride.getD cfg.pool_size ≤ 16) &&
      (decide (dev.device ≠ 84) ||
       decide (cfg.pool_stride.getD cfg.pool_size ≤ 4) ||
       decide (p = Pooling.Max))) &&
     decide (cfg.stride = 1)
   | none => decide (0 < cfg.stride) && decide (cfg.stride ≤ 3)) &&
  decide (0 ≤ cfg.padding) && decide (cfg.padding ≤ 2) &&
  (cfg.batchnorm.isNone || cfg.bias) &&
  (match cfg.kernel_size with
   | some ks =>
     (decide (ks = 3) || (decide (dev.device ≠ 84) && decide (ks = 1))) &&
     (decide (cfg.op = ConvOp.Conv2d) || decide (dev.device ≠ 84))
   | none => true) &&
  (decide (cfg.weight_bits = none) || decide (cfg.weight_bits = some 1) ||
   decide (cfg.weight_bits = some 2) || decide (cfg.weight_bits = some 4) ||
   decide (cfg.weight_bits = some 8)) &&
  (decide (cfg.bias_bits = none) || decide (cfg.bias_bits = some 8)) &&
  (!(decide (cfg.activation = some Activation.Abs)) || decide (dev.device ≠ 84))

/-- Forward pass of a built (quantize, clamp) stage pair as composed by
`QuantizationAwareModule.forward`: `clamp(quantize(x))`, with the quantize
member reading the profile active at forward time. -/
def applyQC (devNow : Device) (qc : QMod × CMod) (x : ℚ) : ℚ :=
  qc.2.apply (qc.1.apply devNow x)

/-- The weight transform `clamp_weight(quantize_weight(w))` built by
`quantize_clamp_parameters(bits)` and applied in the forward pass. -/
def paramTransform (dev : Device) (bits : ℤ) (x : ℚ) : ℚ :=
  applyQC dev (quantize_clamp_parameters dev (some bits)) x

/-- Modelled from the spec words of the claim: the asserted simulate-mode
formula `floor(x / 2^(bits-1) + 1)` for `bits > 1`. -/
def specQuantSimulateGt1 (bits : ℤ) (x : ℚ) : ℚ :=
  (⌊x / (2:ℚ)^(bits-1) + 1⌋ : ℤ)

/-- Modelled from the amended spec words: the quantization primitive's
forward pass, with the `bits > 1` simulate branch written as
`floor((x + 0.5) / 2^(bits-1) + 0.5)`. -/
def specQuantizationForward (simulate : Bool) (bits : ℤ) (x : ℚ) : ℚ :=
  if simulate then
    if 1 < bits then (⌊(x + 1/2) / (2:ℚ)^(bits-1) + 1/2⌋ : ℤ)
    else if bits < 1 then (⌊x * (2:ℚ)^(1-bits) + 1/2⌋ : ℤ)
    else (⌊x + 1/2⌋ : ℤ)
  else (torchRound (x * (2:ℚ)^(bits-1)) : ℚ) / (2:ℚ)^(bits-1)

/-- Modelled from the spec words of the claim: the asserted output-shift
formula `clamp(ceil(-log2(1/m)), -15, 15)`; since `-log2(1/m) = log2 m`,
its exact-arithmetic ceiling is `Int.clog 2 m`. -/
def specOutShift (m : ℚ) : ℤ :=
  min 15 (max (-15) (Int.clog 2 m))

/-- The symmetric signed integer clamp range `[-2^(b-1), 2^(b-1)-1]`. -/
def intClampRange (b : ℤ) : CMod :=
  CMod.clamp (-((2:ℚ)^(b-1))) ((2:ℚ)^(b-1)-1)

/-- The continuous-mode clamp range obtained by dividing the symmetric
signed integer range by `2^(b-1)`: `[-1, (2^(b-1)-1)/2^(b-1)]`. -/
def divClampRange (b : ℤ) : CMod :=
  CMod.clamp (-1) (((2:ℚ)^(b-1)-1)/(2:ℚ)^(b-1))

/-- A config exercising `wide=True` with a non-null activation. -/
def cfgWideReLU : Conv2dConfig :=
  { pooling := none, pool_size := 2, pool_stride := some 2, stride := 1,
    padding := 0, bias := true, activation := some Activation.ReLU,
    wide := true, batchnorm := none, kernel_size := some 3,
    op := ConvOp.Conv2d, weight_bits := none, bias_bits := none }

/-- A config requesting batch normalization without a bias. -/
def cfgBnNoBias : Conv2dConfig :=
  { pooling := none, pool_size := 2, pool_stride := some 2, stride := 1,
    padding := 0, bias := false, activation := none,
    wide := false, batchnorm := some BatchNorm.NoAffine, kernel_size := some 3,
    op := ConvOp.Conv2d, weight_bits := none, bias_bits := none }

/-- A config with pooling of size 3 (odd), illegal on AI84. -/
def cfgPool3 : Conv2dConfig :=
  { pooling := some Pooling.Max, pool_size := 3, pool_stride := some 2,
    stride := 1, padding := 0, bias := true, activation := none,
    wide := false, batchnorm := none, kernel_size := some 3,
    op := ConvOp.Conv2d, weight_bits := none, bias_bits := none }

/-! ### Helper lemmas -/

/-- Rounding an integer is the identity. -/
lemma torchRound_intCast (j : ℤ) : torchRound (j : ℚ) = j := by
  simp [torchRound]

/-- The forward pass of a quantization-side module depends on the
forward-time profile only through its `simulate` flag. -/
lemma QMod.apply_simulate_congr (d1 d2 : Device) (h : d1.simulate = d2.simulate)
    (q : QMod) (x : ℚ) : QMod.apply d1 q x = QMod.apply d2 q x := by
  cases q <;> simp [QMod.apply, h]

/-- Clamping `k/M` to `[-1, (M-1)/M]` lands on some `j/M` with
`-M ≤ j ≤ M-1`. -/
lemma clampDiv_exists (M k : ℤ) (hM : 1 ≤ M) :
    ∃ j : ℤ, -M ≤ j ∧ j ≤ M - 1 ∧
      min (((M:ℚ)-1)/(M:ℚ)) (max (-1) ((k:ℚ)/(M:ℚ))) = (j:ℚ)/(M:ℚ) := by
  have hMpos : (0:ℚ) < (M:ℚ) := by exact_mod_cast (by omega : (0:ℤ) < M)
  have hM0 : (M:ℚ) ≠ 0 := ne_of_gt hMpos
  have hlohi : (-1:ℚ) ≤ ((M:ℚ)-1)/(M:ℚ) := by
    rw [le_div_iff₀ hMpos]
    have : (1:ℚ) ≤ (M:ℚ) := by exact_mod_cast hM
    nlinarith
  rcases le_total ((k:ℚ)/(M:ℚ)) (-1) with h | h
  · refine ⟨-M, le_refl _, by omega, ?_⟩
    rw [max_eq_left h, min_eq_right hlohi]
    push_cast
    field_simp
  · rcases le_total ((k:ℚ)/(M:ℚ)) (((M:ℚ)-1)/(M:ℚ)) with h2 | h2
    · refine ⟨k, ?_, ?_, ?_⟩
      · have := (le_div_iff₀ hMpos).mp h
        have : -(M:ℚ) ≤ (k:ℚ) := by nlinarith
        exact_mod_cast this
      · have := (div_le_div_iff_of_pos_right hMpos).mp h2
        have : (k:ℚ) ≤ (M:ℚ) - 1 := this
        exact_mod_cast this
      · rw [max_eq_right h, min_eq_right h2]
    · refine ⟨M - 1, by omega, le_refl _, ?_⟩
      rw [max_eq_right h, min_eq_left h2]
      push_cast
      ring

/-- Quantize-then-clamp in non-simulate mode fixes every clamped grid point
`j/M`, `-M ≤ j ≤ M-1`. -/
lemma quantClampDiv_fixed (M j : ℤ) (hM : 1 ≤ M) (hj1 : -M ≤ j) (hj2 : j ≤ M - 1) :
    min (((M:ℚ)-1)/(M:ℚ))
      (max (-1) ((torchRound (((j:ℚ)/(M:ℚ)) * (M:ℚ)) : ℚ)/(M:ℚ))) =
    (j:ℚ)/(M:ℚ) := by
  have hMpos : (0:ℚ) < (M:ℚ) := by exact_mod_cast (by omega : (0:ℤ) < M)
  have hM0 : (M:ℚ) ≠ 0 := ne_of_gt hMpos
  have harg : ((j:ℚ)/(M:ℚ)) * (M:ℚ) = (j:ℚ) := div_mul_cancel₀ _ hM0
  rw [harg, torchRound_intCast]
  have hlow : (-1:ℚ) ≤ (j:ℚ)/(M:ℚ) := by
    rw [le_div_iff₀ hMpos]
    have hj : (-(M:ℚ)) ≤ (j:ℚ) := by exact_mod_cast hj1
    nlinarith
  have hhigh : (j:ℚ)/(M:ℚ) ≤ ((M:ℚ)-1)/(M:ℚ) := by
    apply (div_le_div_iff_of_pos_right hMpos).mpr
    have : (j:ℚ) ≤ (M:ℚ) - 1 := by exact_mod_cast hj2
    exact this
  rw [max_eq_right hlow, min_eq_right hhigh]

/-! ### Claim theorems -/

/-- C1 (counterexample): at `bits = 8`, `x = 0` the claimed simulate-mode
formula `floor(x/2^(bits-1) + 1)` yields `1`, but the code's forward pass
yields `0`. -/
theorem quantize_simulate_formula_refuted :
    specQuantSimulateGt1 8 0 = 1 ∧ QuantizationFunction.forward true 8 0 = 0 := by
  constructor
  · simp only [specQuantSimulateGt1]
    norm_num
  · simp only [QuantizationFunction.forward]
    norm_num

/-- C1 (amended): for every input `x` and bit width, the quantization
primitive's forward pass in simulate mode returns
`floor((x + 0.5)/2^(bits-1) + 0.5)` when `bits > 1`,
`floor(x * 2^(1-bits) + 0.5)` when `bits < 1`, and `floor(x + 0.5)` when
`bits == 1`; in non-simulate mode it returns
`round(x * 2^(bits-1)) / 2^(bits-1)`. -/
theorem quantize_forward_spec (simulate : Bool) (bits : ℤ) (x : ℚ) :
    QuantizationFunction.forward simulate bits x =
      specQuantizationForward simulate bits x := rfl

/-- C2: on two inputs `0.5`, the operator named `Xor` returns `0.5`, which
is the bitwise-OR round trip, while the operator named `Or` returns `-0.5`,
which is the bitwise-XOR round trip: the two bitwise kernels are swapped
relative to their names and docstrings. Moreover `0.5` encodes to integer
`256 = round((0.5 + 0.5) * 256)`, not `255`. -/
theorem bitwise_ops_swapped :
    Xor.bitwise_xor (1/2) (1/2) = 1/2 ∧
    Or.bitwise_or (1/2) (1/2) = -(1/2) ∧
    torchRound (((1:ℚ)/2 + 1/2) * 256) = 256 ∧
    ((Int.lor 256 256 : ℤ) : ℚ) / 256 - 1/2 = 1/2 ∧
    ((Int.xor 256 256 : ℤ) : ℚ) / 256 - 1/2 = -(1/2) := by
  have h : torchRound (((1:ℚ)/2 + 1/2) * 256) = 256 := by
    simp only [torchRound]
    norm_num
  refine ⟨?_, ?_, h, ?_, ?_⟩
  · simp only [Xor.bitwise_xor, h]
    rw [show Int.lor 256 256 = 256 from by decide]
    norm_num
  · simp only [Or.bitwise_or, h]
    rw [show Int.xor 256 256 = 0 from by decide]
    norm_num
  · rw [show Int.lor 256 256 = 256 from by decide]
    norm_num
  · rw [show Int.xor 256 256 = 0 from by decide]
    norm_num

/-- C3 (counterexample): on a weight tensor with maximum magnitude `3`, the
code returns shift `1` while the claimed formula
`clamp(ceil(-log2(1/m)), -15, 15)` gives `2`; moreover `3 * 2^(-1) = 3/2`,
outside the claimed normalized range `[0.5, 1]`. -/
theorem out_shift_formula_refuted :
    OutputShift.forward 3 = 1 ∧ specOutShift 3 = 2 ∧
    (3:ℚ) * (2:ℚ)^(-(OutputShift.forward 3)) = 3/2 := by
  have h1 : OutputShift.forward 3 = 1 := by
    simp only [OutputShift.forward]
    rw [Int.clog_inv]
    rw [show (3:ℚ) = ((3:ℕ):ℚ) by norm_num, Int.log_natCast]
    norm_num [Nat.log]
  refine ⟨h1, ?_, ?_⟩
  · simp only [specOutShift]
    rw [show (3:ℚ) = ((3:ℕ):ℚ) by norm_num, Int.clog_natCast]
    norm_num [Nat.clog]
  · rw [h1]
    norm_num

/-- C3 (amended): for a weight tensor with nonzero maximum magnitude `m`,
`calc_out_shift` with adjustment enabled returns
`-clamp(ceil(log2(1/m)), -15, 15) = clamp(floor(log2 m), -15, 15)`; the
result always lies in `[-15, 15]`, away from the clamp boundaries
`m * 2^(-shift)` lies in `[1, 2)`, and with adjustment disabled the
previous shift value is returned unchanged. -/
theorem out_shift_spec (m : ℚ) (hm : 0 < m) (w prev : ℚ) :
    OutputShift.forward m = min 15 (max (-15) (Int.log 2 m)) ∧
    -15 ≤ OutputShift.forward m ∧ OutputShift.forward m ≤ 15 ∧
    (-15 ≤ Int.log 2 m → Int.log 2 m ≤ 15 →
      1 ≤ m * (2:ℚ)^(-(OutputShift.forward m)) ∧
      m * (2:ℚ)^(-(OutputShift.forward m)) < 2) ∧
    OutputShiftSqueeze.forward w prev = prev := by
  have hmain : OutputShift.forward m = min 15 (max (-15) (Int.log 2 m)) := by
    simp only [OutputShift.forward, Int.clog_inv]
    omega
  refine ⟨hmain, by rw [hmain]; omega, by rw [hmain]; omega, ?_, rfl⟩
  intro hb1 hb2
  have hL : OutputShift.forward m = Int.log 2 m := by rw [hmain]; omega
  rw [hL]
  have hlow : (2:ℚ)^(Int.log 2 m) ≤ m := Int.zpow_log_le_self (by norm_num) hm
  have hhigh : m < (2:ℚ)^(Int.log 2 m + 1) := Int.lt_zpow_succ_log_self (by norm_num) m
  have hpos : (0:ℚ) < (2:ℚ)^(-(Int.log 2 m)) := zpow_pos (by norm_num) _
  constructor
  · calc (1:ℚ) = (2:ℚ)^(Int.log 2 m) * (2:ℚ)^(-(Int.log 2 m)) := by
          rw [← zpow_add₀ (by norm_num : (2:ℚ) ≠ 0)]
          simp
      _ ≤ m * (2:ℚ)^(-(Int.log 2 m)) := mul_le_mul_of_nonneg_right hlow hpos.le
  · calc m * (2:ℚ)^(-(Int.log 2 m))
        < (2:ℚ)^(Int.log 2 m + 1) * (2:ℚ)^(-(Int.log 2 m)) :=
          mul_lt_mul_of_pos_right hhigh hpos
      _ = 2 := by
          rw [← zpow_add₀ (by norm_num : (2:ℚ) ≠ 0)]
          norm_num

/-- C3 (witness): the amended output-shift specification evaluated at the
concrete weight magnitude `3` and previous shift `5`. -/
theorem out_shift_spec_witness :
    OutputShift.forward 3 = min 15 (max (-15) (Int.log 2 (3:ℚ))) ∧
    -15 ≤ OutputShift.forward 3 ∧ OutputShift.forward 3 ≤ 15 ∧
    (-15 ≤ Int.log 2 (3:ℚ) → Int.log 2 (3:ℚ) ≤ 15 →
      1 ≤ (3:ℚ) * (2:ℚ)^(-(OutputShift.forward 3)) ∧
      (3:ℚ) * (2:ℚ)^(-(OutputShift.forward 3)) < 2) ∧
    OutputShiftSqueeze.forward 0 5 = 5 :=
  out_shift_spec 3 (by norm_num) 0 5

/-- C4 (counterexample): a quantization stage built while the simulate
profile is active produces different outputs on input `0.5` depending on
the profile active at forward time: the simulate flag is read per forward
call, not captured at construction. -/
theorem stage_forward_profile_refuted :
    applyQC (devAI85 false false) (quantize_clamp (devAI85 true false) false false) (1/2) ≠
    applyQC (devAI85 true false) (quantize_clamp (devAI85 true false) false false) (1/2) := by
  have hL : applyQC (devAI85 false false)
      (quantize_clamp (devAI85 true false) false false) (1/2) = 1/2 := by
    simp only [applyQC, quantize_clamp, devAI85, QMod.apply, CMod.apply,
      QuantizationFunction.forward, torchRound]
    norm_num
  have hR : applyQC (devAI85 true false)
      (quantize_clamp (devAI85 true false) false false) (1/2) = 0 := by
    simp only [applyQC, quantize_clamp, devAI85, QMod.apply, CMod.apply,
      QuantizationFunction.forward]
    norm_num
  rw [hL, hR]
  norm_num

/-- C4 (amended): the bit widths and clamp bounds of a stage built by any
of the three factories are captured at construction; the only per-forward
read of the active profile is the simulate flag, so two forward-time
profiles with equal simulate flag produce identical outputs. -/
theorem stage_forward_reads_only_simulate
    (devBuild devNow devNow2 : Device) (wide qa : Bool)
    (pooling : Option Pooling) (bits : Option ℤ) (x : ℚ)
    (h : devNow.simulate = devNow2.simulate) :
    applyQC devNow (quantize_clamp devBuild wide qa) x =
      applyQC devNow2 (quantize_clamp devBuild wide qa) x ∧
    applyQC devNow (quantize_clamp_pool devBuild pooling) x =
      applyQC devNow2 (quantize_clamp_pool devBuild pooling) x ∧
    applyQC devNow (quantize_clamp_parameters devBuild bits) x =
      applyQC devNow2 (quantize_clamp_parameters devBuild bits) x := by
  refine ⟨?_, ?_, ?_⟩ <;>
    · unfold applyQC
      rw [QMod.apply_simulate_congr devNow devNow2 h]

/-- C4 (witness): the amended statement at concrete profiles that differ
in everything but the simulate flag. -/
theorem stage_forward_reads_only_simulate_witness :
    applyQC (devAI85 true false) (quantize_clamp (devAI85 true false) false false) (1/2) =
      applyQC (devAI84 true false) (quantize_clamp (devAI85 true false) false false) (1/2) :=
  (stage_forward_reads_only_simulate (devAI85 true false) (devAI85 true false)
    (devAI84 true false) false false none none (1/2) rfl).1

/-- C5 (counterexample): on the AI85 profile in non-simulate mode, the wide
clamp built by `quantize_clamp` is the absolute symmetric range
`[-2^15, +2^15]`, not the divided range `[-1, (2^15-1)/2^15]` that the
claim's convention prescribes for `b = FULL_ACC_BITS - 2*(DATA_BITS-1) = 16`. -/
theorem wide_clamp_range_refuted :
    (quantize_clamp (devAI85 false false) true false).2 =
      CMod.clamp (-((2:ℚ)^(15:ℤ))) ((2:ℚ)^(15:ℤ)) ∧
    (quantize_clamp (devAI85 false false) true false).2 ≠ divClampRange 16 := by
  have h : (quantize_clamp (devAI85 false false) true false).2 =
      CMod.clamp (-((2:ℚ)^(15:ℤ))) ((2:ℚ)^(15:ℤ)) := by
    simp only [quantize_clamp, devAI85]
    norm_num
  refine ⟨h, ?_⟩
  rw [h]
  simp only [divClampRange, ne_eq, CMod.clamp.injEq, not_and]
  intro hlo
  norm_num at hlo

/-- C5 (amended): in simulate mode every clamp built by the three factories
is the symmetric signed integer range `[-2^(b-1), 2^(b-1)-1]` for the
appropriate bit width `b`; in non-simulate mode the narrow activation
clamp, the parameter clamp, and the average-pool clamp use exactly that
range divided by `2^(b-1)`, while the wide clamp of `quantize_clamp` is
the exception: it is the absolute range `[-2^(B-1), +2^(B-1)]` with
`B = FULL_ACC_BITS - 2*(DATA_BITS-1)` (upper bound `+2^(B-1)`, undivided). -/
theorem clamp_ranges_spec (dev : Device) (qa : Bool) (b : ℤ) :
    (dev.simulate = true →
      (quantize_clamp dev false qa).2 = intClampRange dev.ACTIVATION_BITS ∧
      (quantize_clamp dev true qa).2 = intClampRange dev.FULL_ACC_BITS ∧
      (quantize_clamp_pool dev (some Pooling.Avg)).2 = intClampRange dev.DATA_BITS ∧
      (quantize_clamp_parameters dev (some b)).2 = CMod.empty) ∧
    (dev.simulate = false →
      (quantize_clamp dev false qa).2 = divClampRange dev.ACTIVATION_BITS ∧
      (quantize_clamp_parameters dev (some b)).2 = divClampRange b ∧
      (quantize_clamp_pool dev (some Pooling.Avg)).2 = divClampRange 8 ∧
      (quantize_clamp dev true qa).2 =
        CMod.clamp (-((2:ℚ)^(((dev.FULL_ACC_BITS:ℤ)-2*((dev.DATA_BITS:ℤ)-1))-1)))
                   ((2:ℚ)^(((dev.FULL_ACC_BITS:ℤ)-2*((dev.DATA_BITS:ℤ)-1))-1))) := by
  constructor
  · intro h
    refine ⟨?_, ?_, ?_, ?_⟩ <;>
      simp [quantize_clamp, quantize_clamp_pool, quantize_clamp_parameters,
        h, intClampRange]
  · intro h
    refine ⟨?_, ?_, ?_, ?_⟩ <;>
      simp [quantize_clamp, quantize_clamp_pool, quantize_clamp_parameters,
        h, divClampRange]
    norm_num

/-- C5 (witness): the amended clamp-range statement at the simulate-mode
AI85 profile. -/
theorem clamp_ranges_spec_witness :
    (quantize_clamp (devAI85 true false) false false).2 = intClampRange 8 ∧
    (quantize_clamp (devAI85 true false) true false).2 = intClampRange 30 ∧
    (quantize_clamp_pool (devAI85 true false) (some Pooling.Avg)).2 = intClampRange 8 ∧
    (quantize_clamp_parameters (devAI85 true false) (some 8)).2 = CMod.empty :=
  (clamp_ranges_spec (devAI85 true false) false 8).1 rfl

/-- C6: the construction-time validation of a fused `Conv2d` operator
rejects (a) `wide = True` together with a non-null activation, (b) batch
normalization requested without bias, and (c) an odd pool size such as 3 on
device 84, which requires even pool sizes; each violation makes the
conjunction of constructor assertions false, so construction fails at model-
build time (the forward pass itself contains no assertions and is total). -/
theorem construction_rejects_illegal (dev : Device) (cfg : Conv2dConfig) :
    (cfg.wide = true → cfg.activation ≠ none → Conv2d.valid dev cfg = false) ∧
    (cfg.batchnorm ≠ none → cfg.bias = false → Conv2d.valid dev cfg = false) ∧
    (dev.device = 84 → cfg.pooling ≠ none → cfg.pool_size = 3 →
      Conv2d.valid dev cfg = false) := by
  refine ⟨?_, ?_, ?_⟩
  · intro hw ha
    rcases Option.ne_none_iff_exists.mp ha with ⟨a, hact⟩
    simp [Conv2d.valid, hw, ← hact]
  · intro hb hbias
    rcases Option.ne_none_iff_exists.mp hb with ⟨bn, hbn⟩
    simp [Conv2d.valid, hbias, ← hbn]
  · intro hd hp hps
    rcases Option.ne_none_iff_exists.mp hp with ⟨p, hpool⟩
    simp [Conv2d.valid, ← hpool, hd, hps]

/-- C6 (witness): the three rejections at concrete configurations:
`wide` with ReLU, batch norm without bias, and pool size 3 on AI84. -/
theorem construction_rejects_illegal_witness :
    Conv2d.valid (devAI85 false false) cfgWideReLU = false ∧
    Conv2d.valid (devAI85 false false) cfgBnNoBias = false ∧
    Conv2d.valid (devAI84 false false) cfgPool3 = false :=
  ⟨(construction_rejects_illegal (devAI85 false false) cfgWideReLU).1
      rfl (by decide),
   (construction_rejects_illegal (devAI85 false false) cfgBnNoBias).2.1
      (by decide) rfl,
   (construction_rejects_illegal (devAI84 false false) cfgPool3).2.2
      rfl (by decide) rfl⟩

/-- C7: `set_device` succeeds exactly for the device identifiers 84, 85 and
87 (84 additionally requiring `round_avg = false`); every other identifier
raises an error; `round_avg = true` on device 84 raises an error; on
success the returned profile is the new process-wide active profile, and
device 87 inherits all limits from device 85. -/
theorem set_device_spec (d : ℕ) (s r : Bool) :
    ((∃ dv, set_device d s r = Except.ok dv) ↔
      (d = 84 ∧ r = false) ∨ d = 85 ∨ d = 87) ∧
    (d ≠ 84 → d ≠ 85 → d ≠ 87 →
      set_device d s r = Except.error (ConfigError.unknownDevice d)) ∧
    set_device 84 s true = Except.error ConfigError.assertionFailed ∧
    set_device 85 s r = Except.ok (devAI85 s r) ∧
    set_device 87 s r = Except.ok (devAI87 s r) ∧
    devAI87 s r = devAI85 s r := by
  refine ⟨?_, ?_, by simp [set_device], by simp [set_device],
    by simp [set_device], rfl⟩
  · unfold set_device
    split_ifs <;> simp_all
  · intro h1 h2 h3
    simp [set_device, h1, h2, h3]

/-- C7 (witness): the identifier 86 is rejected with the unknown-device
error. -/
theorem set_device_spec_witness :
    set_device 86 false true = Except.error (ConfigError.unknownDevice 86) :=
  (set_device_spec 86 false true).2.1 (by decide) (by decide) (by decide)

/-- C8: `quantize_clamp_pool` returns identity transforms for max pooling
and for no pooling; for average pooling in simulate mode it returns `Round`
when the construction-time profile's round-average flag is set and `Floor`
otherwise, clamped to the signed `DATA_BITS` range; on any profile obtained
by configuring device 84 the average-pool quantizer is never `Round`, and
in simulate mode it is `Floor`. -/
theorem pool_quantize_clamp_spec (dev : Device) (s r : Bool) (d : Device) :
    quantize_clamp_pool dev (some Pooling.Max) = (QMod.empty, CMod.empty) ∧
    quantize_clamp_pool dev none = (QMod.empty, CMod.empty) ∧
    (dev.simulate = true →
      (quantize_clamp_pool dev (some Pooling.Avg)).1 =
        (if dev.round_avg then QMod.round else QMod.floor) ∧
      (quantize_clamp_pool dev (some Pooling.Avg)).2 =
        intClampRange dev.DATA_BITS) ∧
    (set_device 84 s r = Except.ok d →
      (quantize_clamp_pool d (some Pooling.Avg)).1 ≠ QMod.round ∧
      (d.simulate = true →
        (quantize_clamp_pool d (some Pooling.Avg)).1 = QMod.floor)) := by
  refine ⟨?_, ?_, ?_, ?_⟩
  · cases hs : dev.simulate <;> simp [quantize_clamp_pool, hs]
  · cases hs : dev.simulate <;> simp [quantize_clamp_pool, hs]
  · intro h
    exact ⟨by simp [quantize_clamp_pool, h], by simp [quantize_clamp_pool, h, intClampRange]⟩
  · intro h
    cases r with
    | true => simp [set_device] at h
    | false =>
      have hd : d = devAI84 s false := by
        simpa [set_device] using h.symm
      subst hd
      cases s <;> simp [quantize_clamp_pool, devAI84]

/-- C8 (witness): on the profile produced by configuring device 84 without
simulate, the average-pool quantizer is not `Round`. -/
theorem pool_quantize_clamp_spec_witness :
    (quantize_clamp_pool (devAI84 false false) (some Pooling.Avg)).1 ≠ QMod.round :=
  ((pool_quantize_clamp_spec (devAI85 true true) false false
    (devAI84 false false)).2.2.2 rfl).1

/-- C9: in non-simulate mode, the composed quantize-then-clamp transform of
`quantize_clamp_parameters(bits)` is idempotent on every weight already
within `[-1, 1)`. -/
theorem param_transform_idempotent (dev : Device) (bits : ℤ) (w : ℚ)
    (hs : dev.simulate = false) (hb : 1 ≤ bits) (_h1 : -1 ≤ w) (_h2 : w < 1) :
    paramTransform dev bits (paramTransform dev bits w) =
      paramTransform dev bits w := by
  have hn0 : (0:ℤ) ≤ bits - 1 := by omega
  have hn : bits - 1 = (((bits - 1).toNat : ℕ) : ℤ) :=
    (Int.toNat_of_nonneg hn0).symm
  have hM : (1:ℤ) ≤ 2 ^ (bits - 1).toNat := by
    have := pow_pos (show (0:ℤ) < 2 by norm_num) (bits - 1).toNat
    omega
  have hf : (2:ℚ)^(bits-1) = (((2 ^ (bits - 1).toNat : ℤ) : ℚ)) := by
    have hcast : (((2 ^ (bits - 1).toNat : ℤ) : ℚ)) = (2:ℚ)^((bits - 1).toNat) := by
      push_cast
      ring
    rw [hcast, ← zpow_natCast, ← hn]
  have hPT : ∀ x : ℚ, paramTransform dev bits x =
      min (((((2 ^ (bits - 1).toNat : ℤ)):ℚ)-1)/(((2 ^ (bits - 1).toNat : ℤ)):ℚ))
        (max (-1) ((torchRound (x * (((2 ^ (bits - 1).toNat : ℤ)):ℚ)) : ℚ) /
          (((2 ^ (bits - 1).toNat : ℤ)):ℚ))) := by
    intro x
    simp [paramTransform, applyQC, quantize_clamp_parameters, hs,
      QMod.apply, QuantizationFunction.forward, CMod.apply, hf]
  rw [hPT w, hPT]
  obtain ⟨j, hj1, hj2, hu⟩ :=
    clampDiv_exists (2 ^ (bits - 1).toNat)
      (torchRound (w * (((2 ^ (bits - 1).toNat : ℤ)):ℚ))) hM
  rw [hu]
  exact quantClampDiv_fixed (2 ^ (bits - 1).toNat) j hM hj1 hj2

/-- C9 (witness): the idempotence at the AI85 non-simulate profile with
8-bit weights and weight value `1/3`. -/
theorem param_transform_idempotent_witness :
    paramTransform (devAI85 false false) 8
        (paramTransform (devAI85 false false) 8 (1/3)) =
      paramTransform (devAI85 false false) 8 (1/3) :=
  param_transform_idempotent (devAI85 false false) 8 (1/3) rfl
    (by norm_num) (by norm_num) (by norm_num)

/-- C10: every elementwise operator applies exactly one clamp, after
left-folding its binary function over all inputs; in simulate mode the
clamp bounds are the signed `ACTIVATION_BITS` range of the
construction-time profile, in non-simulate mode they are the fixed
constants `-1` and `127/128` for every profile; with a single input the
binary function is never applied and the result is the clamp of that
input; the `Sub` operator's binary function is `a + (-b)`. -/
theorem eltwise_spec (dev : Device) (f : ℚ → ℚ → ℚ) (x y : ℚ) (xs : List ℚ) :
    (dev.simulate = true →
      Eltwise.clampOf dev = intClampRange dev.ACTIVATION_BITS) ∧
    (dev.simulate = false →
      Eltwise.clampOf dev = CMod.clamp (-1) (127/128)) ∧
    Eltwise.forward (Eltwise.clampOf dev) f x [] = (Eltwise.clampOf dev).apply x ∧
    Eltwise.forward (Eltwise.clampOf dev) f x (y :: xs) =
      (Eltwise.clampOf dev).apply (List.foldl f (f x y) xs) ∧
    Sub.sub x y = x - y := by
  refine ⟨?_, ?_, rfl, rfl, ?_⟩
  · intro h
    simp [Eltwise.clampOf, h, intClampRange]
  · intro h
    simp [Eltwise.clampOf, h]
  · simp only [Sub.sub]
    ring

/-- C10 (witness): the elementwise clamp and single-input behavior at the
simulate-mode AI85 profile with addition. -/
theorem eltwise_spec_witness :
    Eltwise.clampOf (devAI85 true false) = intClampRange 8 ∧
    Eltwise.forward (Eltwise.clampOf (devAI85 true false)) (fun a b => a + b) 1 [] =
      (Eltwise.clampOf (devAI85 true false)).apply 1 :=
  ⟨(eltwise_spec (devAI85 true false) (fun a b => a + b) 1 2 []).1 rfl,
   (eltwise_spec (devAI85 true false) (fun a b => a + b) 1 2 []).2.2.1⟩

end AI8X
